import Mathlib

/-!
Verification of the pyco lexer (`src/pyco/parser/lexer.py`) and its
diagnostic reporter (`src/pyco/parser/errors.py`), shallowly embedded in
Lean 4.  Source text is modelled as `List Char`, the scanner state as a
structure mirroring the `Lexer` class attributes, and the anchored regular
expressions `NUM_RE`, `IDENT_RE`, `STR_RE` as functions computing the match
that Python's backtracking `re` engine actually returns on them.
-/

namespace Pyco

/-- Mirrors the `TokenType` enumeration of `lexer.py` (lines 10-62). -/
inductive TokenType where
  | IDENTIFIER
  | NUMBER
  | STRING
  | LPAR
  | RPAR
  | LSQB
  | RSQB
  | COLON
  | COMMA
  | SEMI
  | PLUS
  | MINUS
  | STAR
  | SLASH
  | VBAR
  | AMPER
  | LESS
  | GREATER
  | EQUAL
  | DOT
  | PERCENT
  | LBRACE
  | RBRACE
  | EQEQUAL
  | NOTEQUAL
  | LESSEQUAL
  | GREATEREQUAL
  | TILDE
  | CIRCUMFLEX
  | LEFTSHIFT
  | RIGHTSHIFT
  | DOUBLESTAR
  | PLUSEQUAL
  | MINEQUAL
  | STAREQUAL
  | SLASHEQUAL
  | PERCENTEQUAL
  | AMPEREQUAL
  | VBAREQUAL
  | CIRCUMFLEXEQUAL
  | LEFTSHIFTEQUAL
  | RIGHTSHIFTEQUAL
  | DOUBLESTAREQUAL
  | DOUBLESLASH
  | DOUBLESLASHEQUAL
  | AT
  | ATEQUAL
  | ELLIPSIS
  | COLONEQUAL
  | QUOTEQUOTE
  | QUOTE
  | BACKSLASH
deriving DecidableEq, Repr

/-- Mirrors the `SYMBOLS` dict of `lexer.py` (lines 65-115), as an
association list in the source's insertion order.  Braces and the single
quote are written with hexadecimal escapes. -/
def SYMBOLS : List (String × TokenType) := [
  ("(", TokenType.LPAR),
  (")", TokenType.RPAR),
  ("[", TokenType.LSQB),
  ("]", TokenType.RSQB),
  (":", TokenType.COLON),
  (",", TokenType.COMMA),
  (";", TokenType.SEMI),
  ("+", TokenType.PLUS),
  ("-", TokenType.MINUS),
  ("*", TokenType.STAR),
  ("/", TokenType.SLASH),
  ("|", TokenType.VBAR),
  ("&", TokenType.AMPER),
  ("<", TokenType.LESS),
  (">", TokenType.GREATER),
  ("=", TokenType.EQUAL),
  (".", TokenType.DOT),
  ("%", TokenType.PERCENT),
  ("\x7b", TokenType.LBRACE),
  ("\x7d", TokenType.RBRACE),
  ("==", TokenType.EQEQUAL),
  ("!=", TokenType.NOTEQUAL),
  ("<=", TokenType.LESSEQUAL),
  (">=", TokenType.GREATEREQUAL),
  ("~", TokenType.TILDE),
  ("^", TokenType.CIRCUMFLEX),
  ("<<", TokenType.LEFTSHIFT),
  (">>", TokenType.RIGHTSHIFT),
  ("**", TokenType.DOUBLESTAR),
  ("+=", TokenType.PLUSEQUAL),
  ("-=", TokenType.MINEQUAL),
  ("*=", TokenType.STAREQUAL),
  ("/=", TokenType.SLASHEQUAL),
  ("%=", TokenType.PERCENTEQUAL),
  ("&=", TokenType.AMPEREQUAL),
  ("|=", TokenType.VBAREQUAL),
  ("^=", TokenType.CIRCUMFLEXEQUAL),
  ("<<=", TokenType.LEFTSHIFTEQUAL),
  (">>=", TokenType.RIGHTSHIFTEQUAL),
  ("**=", TokenType.DOUBLESTAREQUAL),
  ("//", TokenType.DOUBLESLASH),
  ("//=", TokenType.DOUBLESLASHEQUAL),
  ("@", TokenType.AT),
  ("@=", TokenType.ATEQUAL),
  ("...", TokenType.ELLIPSIS),
  (":=", TokenType.COLONEQUAL),
  ("\"", TokenType.QUOTEQUOTE),
  ("\x27", TokenType.QUOTE),
  ("\\", TokenType.BACKSLASH)]

/-- Dict lookup `SYMBOLS[k]`, total as an `Option`: `none` models a Python
`KeyError`. -/
def symLookup (k : String) : Option TokenType := SYMBOLS.lookup k

/-- Mirrors `SYM` (lexer.py line 117): the symbol-start character string. -/
def SYM : String := "()[]:,;+-*/|&<>=.%\x7b\x7d!~^@\x27\""

/-- Mirrors `NUM` (lexer.py line 118). -/
def NUM : String := "0123456789"

/-- Mirrors `IDENT` (lexer.py line 119): `ascii_lowercase + ascii_uppercase + "_"`. -/
def IDENT : String := "abcdefghijklmnopqrstuvwxyzABCDEFGHIJKLMNOPQRSTUVWXYZ_"

/-- Python `c in SYM` for a single character. -/
def isSYM (c : Char) : Bool := SYM.data.contains c

/-- Python `c in NUM` for a single character. -/
def isNUM (c : Char) : Bool := NUM.data.contains c

/-- Python `c in IDENT` for a single character. -/
def isIDENT (c : Char) : Bool := IDENT.data.contains c

/-- Python `str.isspace()` restricted to the ASCII whitespace characters
(space, tab, newline, vertical tab, form feed, carriage return); the
non-ASCII whitespace code points accepted by Python are outside the model. -/
def pyIsSpace (c : Char) : Bool :=
  c = ' ' || c = '\t' || c = '\n' || c = '\x0b' || c = '\x0c' || c = '\r'

/-- The match of `NUM_RE = ^[0-9]+(\.[0-9]+)?` (lexer.py line 122) against
the character list `l`, as the matched text: one or more digits, then a dot
and one or more digits only when both are present (the optional group
cannot steal digits, since it must start with a dot). -/
def numMatch (l : List Char) : Option (List Char) :=
  let ds := l.takeWhile isNUM
  if ds = [] then none
  else
    match l.drop ds.length with
    | '.' :: r2 =>
      let fs := r2.takeWhile isNUM
      if fs = [] then some ds else some (ds ++ '.' :: fs)
    | _ => some ds

/-- The match of `IDENT_RE = ^[a-zA-Z_][a-zA-Z0-9_]*` (lexer.py line 121)
against `l`, as the matched text. -/
def identMatch (l : List Char) : Option (List Char) :=
  match l with
  | [] => none
  | c :: rest =>
    if isIDENT c then some (c :: rest.takeWhile (fun x => isIDENT x || isNUM x))
    else none

/-- One branch of `STR_RE` (lexer.py lines 123-125) with delimiter `q`,
i.e. the pattern `q([^q]|\q)*q`, as the END INDEX of the match Python's
backtracking engine returns.  Because the first alternative `[^q]` also
matches a backslash, the engine's first successful path stops the loop at
the first later occurrence of `q` and closes the literal there; the
escape alternative is unreachable, and no match exists at all when `q`
never recurs. -/
def strMatchQ (q : Char) (l : List Char) : Option Nat :=
  match l with
  | [] => none
  | c :: rest =>
    if c = q then
      match rest.findIdx? (· == q) with
      | some j => some (j + 2)
      | none => none
    else none

/-- The match of `STR_RE = ^(DQ|SQ)` (lexer.py line 125): the double-quote
branch is tried first, then the single-quote branch. -/
def strMatch (l : List Char) : Option Nat :=
  match strMatchQ '\"' l with
  | some e => some e
  | none => strMatchQ '\'' l

/-- Mirrors the `Token` dataclass (lexer.py lines 128-133).  Note the
lexer always passes its current line counter as the `pos` field. -/
structure Token where
  pos : Nat
  filename : String
  type : TokenType
  value : Option String := none
deriving DecidableEq, Repr

/-- The mutable state of the `Lexer` class (lexer.py lines 146-152):
`_code`, `_file`, `_line`, `_pos`. -/
structure Lexer where
  code : List Char
  file : String
  line : Nat
  pos : Nat
deriving DecidableEq, Repr

/-- `Lexer.__init__`: line counter and cursor start at 0. -/
def Lexer.init (code : String) (filename : String) : Lexer :=
  { code := code.data, file := filename, line := 0, pos := 0 }

/-- Outcome of one `next()` call.  `token` and `eof` are the normal
returns; `fatal` models the call to `error(...)` (which prints and exits);
`crash` models an uncaught Python exception (failed `assert`, `KeyError`,
`IndexError`). -/
inductive NextResult where
  | token (t : Token)
  | eof
  | fatal (file : String) (line : Nat) (type : String) (detail : String)
  | crash (msg : String)
deriving DecidableEq, Repr

/-- `Lexer._nchar(inc)` (lexer.py lines 158-161).  Faithful to the source:
the bound check uses `pos + inc`, but the returned character is always the
one at `pos + 1`, whatever `inc` is. -/
def Lexer.nchar (l : Lexer) (inc : Nat) : Option Char :=
  if l.pos + inc ≥ l.code.length then none
  else l.code[l.pos + 1]?

/-- `Lexer._process_string` (lexer.py lines 236-248): the token value is
the whole matched text, both delimiting quotes included; a failed match is
the `assert` crash. -/
def Lexer.processString (l : Lexer) : NextResult × Lexer :=
  match strMatch (l.code.drop l.pos) with
  | none => (.crash ("_process_string failed to find a valid identifier."), l)
  | some e =>
    (.token { pos := l.line, filename := l.file, type := .STRING,
              value := some (String.mk ((l.code.drop l.pos).take e)) },
     { l with pos := l.pos + e })

/-- `Lexer._process_number` (lexer.py lines 208-220). -/
def Lexer.processNumber (l : Lexer) : NextResult × Lexer :=
  match numMatch (l.code.drop l.pos) with
  | none => (.crash ("_process_number failed to find a valid number."), l)
  | some m =>
    (.token { pos := l.line, filename := l.file, type := .NUMBER,
              value := some (String.mk m) },
     { l with pos := l.pos + m.length })

/-- `Lexer._process_ident` (lexer.py lines 222-234). -/
def Lexer.processIdent (l : Lexer) : NextResult × Lexer :=
  match identMatch (l.code.drop l.pos) with
  | none => (.crash ("_process_ident failed to find a valid identifier."), l)
  | some m =>
    (.token { pos := l.line, filename := l.file, type := .IDENTIFIER,
              value := some (String.mk m) },
     { l with pos := l.pos + m.length })

/-- The `self._pos += adv; return Token(self._line, self._file, SYMBOLS[key])`
pattern of `_process_symbol`: the cursor moves before the dict lookup, so a
`KeyError` crash still leaves the cursor advanced. -/
def Lexer.symToken (l : Lexer) (adv : Nat) (key : String) : NextResult × Lexer :=
  let l' := { l with pos := l.pos + adv }
  match symLookup key with
  | none => (.crash ("KeyError"), l')
  | some ty => (.token { pos := l.line, filename := l.file, type := ty }, l')

/-- `Lexer._process_symbol` (lexer.py lines 163-206), bugs preserved:
when a 2-character symbol matches but no third character exists, the source
consumes 2 yet looks up `SYMBOLS[char]`; and the third candidate character
comes from `_nchar(2)`, which returns the character at `pos + 1`. -/
def Lexer.processSymbol (l : Lexer) : NextResult × Lexer :=
  match l.code[l.pos]? with
  | none => (.crash ("IndexError"), l)
  | some char =>
    if char = '\"' ∨ char = '\'' then l.processString
    else
      match l.nchar 1 with
      | none => l.symToken 1 (String.mk [char])
      | some nchar =>
        if (symLookup (String.mk [char, nchar])).isSome then
          match l.nchar 2 with
          | none => l.symToken 2 (String.mk [char])
          | some nchar2 =>
            if (symLookup (String.mk [char, nchar, nchar2])).isSome = false then
              l.symToken 2 (String.mk [char, nchar])
            else
              l.symToken 3 (String.mk [char, nchar, nchar2])
        else l.symToken 1 (String.mk [char])

/-- `Lexer.next` (lexer.py lines 250-276) with an explicit fuel argument
standing for the tail-recursive whitespace skip; `Lexer.next` below always
supplies more fuel than there are characters left, so the fuel-exhaustion
branch is unreachable. -/
def Lexer.nextF : Nat → Lexer → NextResult × Lexer
  | 0, l => (.crash ("fuel"), l)
  | fuel + 1, l =>
    match l.code[l.pos]? with
    | none => (.eof, l)
    | some c =>
      if pyIsSpace c then
        Lexer.nextF fuel
          { l with line := if c = '\n' then l.line + 1 else l.line, pos := l.pos + 1 }
      else if isSYM c then l.processSymbol
      else if isNUM c then l.processNumber
      else if isIDENT c then l.processIdent
      else
        (.fatal l.file l.line ("UnexpectedCharacter")
          (("Not expecting to find character: ") ++ String.mk [c]), l)

/-- `Lexer.next()`: one classification step, returning the outcome and the
updated scanner state. -/
def Lexer.next (l : Lexer) : NextResult × Lexer :=
  Lexer.nextF (l.code.length - l.pos + 1) l

/-- Python `print(*parts, sep)`: the parts joined by the separator. -/
def joinSep (sep : String) : List String → String
  | [] => ""
  | [p] => p
  | p :: rest => p ++ sep ++ joinSep sep rest

/-- Python `print(*parts, sep=sep)` writes the joined parts and a final
newline. -/
def pyPrint (parts : List String) (sep : String) : String :=
  joinSep sep parts ++ "\n"

/-- `error` (errors.py lines 4-11): the text printed to standard output and
the process exit status.  The function never returns to its caller; in this
embedding that terminal outcome is the returned pair itself. -/
def error (file : String) (line : Nat) (type : String) (detail : String) : String × Nat :=
  (pyPrint [("An error occurred while parsing: ") ++ type,
            ("Location: ") ++ file ++ (":") ++ toString line,
            detail] ("\n"),
   1)

/-! Helper lemmas about the embedded definitions. -/

/-- A successful dict lookup means the key-value pair is in the table. -/
theorem lookup_mem (l : List (String × TokenType)) (k : String) (ty : TokenType)
    (h : l.lookup k = some ty) : (k, ty) ∈ l := by
  induction l with
  | nil => simp [List.lookup] at h
  | cons p rest ih =>
    obtain ⟨a, b⟩ := p
    cases hka : k == a with
    | true =>
      simp only [List.lookup, hka] at h
      injection h with h
      subst h
      have hk : k = a := eq_of_beq hka
      subst hk
      exact List.mem_cons_self _ _
    | false =>
      simp only [List.lookup, hka] at h
      exact List.mem_cons_of_mem _ (ih h)

/-- No entry of the symbol table carries a literal token type. -/
theorem symbols_value_not_literal :
    ∀ p ∈ SYMBOLS, p.2 ≠ TokenType.IDENTIFIER ∧ p.2 ≠ TokenType.NUMBER ∧
      p.2 ≠ TokenType.STRING := by decide

/-- The only symbol-table key mapped to `BACKSLASH` is the backslash itself. -/
theorem symbols_backslash_key :
    ∀ p ∈ SYMBOLS, p.2 = TokenType.BACKSLASH → p.1 = ("\\") := by decide

/-- A successful symbol lookup never yields a literal token type. -/
theorem symLookup_not_literal {k : String} {ty : TokenType} (h : symLookup k = some ty) :
    ty ≠ TokenType.IDENTIFIER ∧ ty ≠ TokenType.NUMBER ∧ ty ≠ TokenType.STRING :=
  symbols_value_not_literal _ (lookup_mem _ _ _ h)

/-- A lookup can only yield `BACKSLASH` at the key `"\\"`. -/
theorem symLookup_backslash {k : String} (h : symLookup k = some TokenType.BACKSLASH) :
    k = ("\\") :=
  symbols_backslash_key _ (lookup_mem _ _ _ h) rfl

/-- A successful `NUM_RE` match is non-empty. -/
theorem numMatch_ne_nil {l m : List Char} (h : numMatch l = some m) : m ≠ [] := by
  simp only [numMatch] at h
  split at h
  · exact absurd h (by simp)
  · rename_i hds
    split at h
    · split at h
      · injection h with h
        subst h
        exact hds
      · injection h with h
        subst h
        simp
    · injection h with h
      subst h
      exact hds

/-- A successful `IDENT_RE` match is non-empty. -/
theorem identMatch_ne_nil {l m : List Char} (h : identMatch l = some m) : m ≠ [] := by
  cases l with
  | nil => simp [identMatch] at h
  | cons c rest =>
    simp only [identMatch] at h
    split at h
    · injection h with h
      subst h
      simp
    · exact absurd h (by simp)

/-- A successful single-delimiter string match covers at least the two
quotes and starts on a non-empty input. -/
theorem strMatchQ_some {q : Char} {l : List Char} {e : Nat}
    (h : strMatchQ q l = some e) : 2 ≤ e ∧ l ≠ [] := by
  cases l with
  | nil => simp [strMatchQ] at h
  | cons c rest =>
    simp only [strMatchQ] at h
    split at h
    · split at h
      · injection h with h
        subst h
        exact ⟨by omega, by simp⟩
      · exact absurd h (by simp)
    · exact absurd h (by simp)

/-- A successful `STR_RE` match covers at least the two quotes. -/
theorem strMatch_some {l : List Char} {e : Nat} (h : strMatch l = some e) :
    2 ≤ e ∧ l ≠ [] := by
  simp only [strMatch] at h
  split at h
  · rename_i e2 hdq
    injection h with h
    subst h
    exact strMatchQ_some hdq
  · exact strMatchQ_some h

/-- Packing a non-empty character list never gives the empty string. -/
theorem mk_ne_empty {m : List Char} (hm : m ≠ []) : String.mk m ≠ ("") := by
  intro h
  apply hm
  have h2 : String.mk m = String.mk [] := h
  injection h2

/-- The prefix kept by a string-literal match is non-empty. -/
theorem take_ne_nil {l : List Char} {e : Nat} (he : 2 ≤ e) (hl : l ≠ []) :
    l.take e ≠ [] := by
  cases l with
  | nil => exact absurd rfl hl
  | cons c rest =>
    cases e with
    | zero => omega
    | succ e2 => simp

/-- Reading index `n` successfully splits `drop n` as a cons. -/
theorem drop_cons {l : List Char} {n : Nat} {c : Char} (h : l[n]? = some c) :
    l.drop n = c :: l.drop (n + 1) := by
  have hn : n < l.length := (List.getElem?_eq_some_iff.mp h).1
  have h2 := List.getElem_cons_drop l n hn
  rw [← h2, (List.getElem?_eq_some_iff.mp h).2]

/-- A token produced by the string scanner: type `STRING`, a non-empty
value, and a strictly advanced cursor. -/
theorem processString_token {l : Lexer} {t : Token} {l' : Lexer}
    (h : l.processString = (.token t, l')) :
    t.type = TokenType.STRING ∧ (∃ v, t.value = some v ∧ v ≠ ("")) ∧ l.pos < l'.pos := by
  simp only [Lexer.processString] at h
  split at h
  · exact absurd h (by simp)
  · rename_i e he
    obtain ⟨he2, hne⟩ := strMatch_some he
    injection h with h1 h2
    injection h1 with h1
    subst h1
    subst h2
    refine ⟨rfl, ⟨_, rfl, mk_ne_empty (take_ne_nil he2 hne)⟩, ?_⟩
    simp
    omega

/-- The string scanner never moves the cursor backwards. -/
theorem processString_mono {l : Lexer} {r : NextResult} {l' : Lexer}
    (h : l.processString = (r, l')) : l.pos ≤ l'.pos := by
  simp only [Lexer.processString] at h
  split at h
  · injection h with h1 h2
    subst h2
    exact Nat.le_refl _
  · injection h with h1 h2
    subst h2
    simp

/-- A token produced by the number scanner: type `NUMBER`, a non-empty
value, and a strictly advanced cursor. -/
theorem processNumber_token {l : Lexer} {t : Token} {l' : Lexer}
    (h : l.processNumber = (.token t, l')) :
    t.type = TokenType.NUMBER ∧ (∃ v, t.value = some v ∧ v ≠ ("")) ∧ l.pos < l'.pos := by
  simp only [Lexer.processNumber] at h
  split at h
  · exact absurd h (by simp)
  · rename_i m hm
    have hne := numMatch_ne_nil hm
    injection h with h1 h2
    injection h1 with h1
    subst h1
    subst h2
    refine ⟨rfl, ⟨_, rfl, mk_ne_empty hne⟩, ?_⟩
    have : 0 < m.length := List.length_pos.mpr hne
    simp
    omega

/-- The number scanner never moves the cursor backwards. -/
theorem processNumber_mono {l : Lexer} {r : NextResult} {l' : Lexer}
    (h : l.processNumber = (r, l')) : l.pos ≤ l'.pos := by
  simp only [Lexer.processNumber] at h
  split at h
  · injection h with h1 h2
    subst h2
    exact Nat.le_refl _
  · injection h with h1 h2
    subst h2
    simp

/-- A token produced by the identifier scanner: type `IDENTIFIER`, a
non-empty value, and a strictly advanced cursor. -/
theorem processIdent_token {l : Lexer} {t : Token} {l' : Lexer}
    (h : l.processIdent = (.token t, l')) :
    t.type = TokenType.IDENTIFIER ∧ (∃ v, t.value = some v ∧ v ≠ ("")) ∧ l.pos < l'.pos := by
  simp only [Lexer.processIdent] at h
  split at h
  · exact absurd h (by simp)
  · rename_i m hm
    have hne := identMatch_ne_nil hm
    injection h with h1 h2
    injection h1 with h1
    subst h1
    subst h2
    refine ⟨rfl, ⟨_, rfl, mk_ne_empty hne⟩, ?_⟩
    have : 0 < m.length := List.length_pos.mpr hne
    simp
    omega

/-- The identifier scanner never moves the cursor backwards. -/
theorem processIdent_mono {l : Lexer} {r : NextResult} {l' : Lexer}
    (h : l.processIdent = (r, l')) : l.pos ≤ l'.pos := by
  simp only [Lexer.processIdent] at h
  split at h
  · injection h with h1 h2
    subst h2
    exact Nat.le_refl _
  · injection h with h1 h2
    subst h2
    simp

/-- What `symToken` does: advances the cursor by `adv` and, when it
produces a token, the token's type comes from the table and it has no
value. -/
theorem symToken_spec {l : Lexer} {adv : Nat} {key : String} {r : NextResult} {l' : Lexer}
    (h : l.symToken adv key = (r, l')) :
    l'.pos = l.pos + adv ∧
      ∀ t, r = .token t → t.value = none ∧ symLookup key = some t.type := by
  simp only [Lexer.symToken] at h
  split at h
  · injection h with h1 h2
    subst h2
    subst h1
    exact ⟨rfl, fun t ht => by simp at ht⟩
  · rename_i ty hty
    injection h with h1 h2
    subst h2
    subst h1
    refine ⟨rfl, fun t ht => ?_⟩
    injection ht with ht
    subst ht
    exact ⟨rfl, hty⟩

/-- A token produced by the symbol matcher is either a string token (with a
non-empty value) or a table token (no value, type looked up at a key that
is the dispatch character alone or a 2- or 3-character sequence); in every
case the cursor strictly advances. -/
theorem processSymbol_token {l : Lexer} {t : Token} {l' : Lexer}
    (h : l.processSymbol = (.token t, l')) :
    ∃ char, l.code[l.pos]? = some char ∧
      ((t.type = TokenType.STRING ∧ (∃ v, t.value = some v ∧ v ≠ ("")) ∧ l.pos < l'.pos) ∨
       (t.value = none ∧ l.pos < l'.pos ∧
        ∃ k : List Char, symLookup (String.mk k) = some t.type ∧
          (k = [char] ∨ k.length = 2 ∨ k.length = 3))) := by
  simp only [Lexer.processSymbol] at h
  split at h
  · exact absurd h (by simp)
  · rename_i char hchar
    refine ⟨char, hchar, ?_⟩
    split at h
    · exact .inl (processString_token h)
    · split at h
      · obtain ⟨hp, hs⟩ := symToken_spec h
        obtain ⟨hv, hk⟩ := hs t rfl
        exact .inr ⟨hv, by omega, [char], hk, .inl rfl⟩
      · rename_i nchar hnchar
        split at h
        · split at h
          · obtain ⟨hp, hs⟩ := symToken_spec h
            obtain ⟨hv, hk⟩ := hs t rfl
            exact .inr ⟨hv, by omega, [char], hk, .inl rfl⟩
          · split at h
            · obtain ⟨hp, hs⟩ := symToken_spec h
              obtain ⟨hv, hk⟩ := hs t rfl
              exact .inr ⟨hv, by omega, [char, nchar], hk, .inr (.inl rfl)⟩
            · rename_i nchar2 hnchar2 hsym3
              obtain ⟨hp, hs⟩ := symToken_spec h
              obtain ⟨hv, hk⟩ := hs t rfl
              exact .inr ⟨hv, by omega, [char, nchar, nchar2], hk, .inr (.inr rfl)⟩
        · obtain ⟨hp, hs⟩ := symToken_spec h
          obtain ⟨hv, hk⟩ := hs t rfl
          exact .inr ⟨hv, by omega, [char], hk, .inl rfl⟩

/-- The symbol matcher never moves the cursor backwards. -/
theorem processSymbol_mono {l : Lexer} {r : NextResult} {l' : Lexer}
    (h : l.processSymbol = (r, l')) : l.pos ≤ l'.pos := by
  simp only [Lexer.processSymbol] at h
  split at h
  · injection h with h1 h2
    subst h2
    exact Nat.le_refl _
  · split at h
    · exact processString_mono h
    · split at h
      · obtain ⟨hp, _⟩ := symToken_spec h
        omega
      · split at h
        · split at h
          · obtain ⟨hp, _⟩ := symToken_spec h
            omega
          · split at h
            · obtain ⟨hp, _⟩ := symToken_spec h
              omega
            · obtain ⟨hp, _⟩ := symToken_spec h
              omega
        · obtain ⟨hp, _⟩ := symToken_spec h
          omega

/-- The key facts about any token `next()` ever returns: its value is
non-empty exactly when its type is a literal type, punctuation tokens have
no value, the type is never `BACKSLASH`, and the cursor strictly advances. -/
theorem nextF_token_spec : ∀ (fuel : Nat) (l : Lexer) (t : Token) (l' : Lexer),
    Lexer.nextF fuel l = (.token t, l') →
    ((t.type = TokenType.IDENTIFIER ∨ t.type = TokenType.NUMBER ∨ t.type = TokenType.STRING) →
       ∃ v, t.value = some v ∧ v ≠ ("")) ∧
    (¬(t.type = TokenType.IDENTIFIER ∨ t.type = TokenType.NUMBER ∨
        t.type = TokenType.STRING) → t.value = none) ∧
    t.type ≠ TokenType.BACKSLASH ∧ l.pos < l'.pos := by
  intro fuel
  induction fuel with
  | zero =>
    intro l t l' h
    exact absurd h (by simp [Lexer.nextF])
  | succ fuel ih =>
    intro l t l' h
    simp only [Lexer.nextF] at h
    split at h
    · exact absurd h (by simp)
    · rename_i c hc
      split at h
      · obtain ⟨h1, h2, h3, h4⟩ := ih _ _ _ h
        refine ⟨h1, h2, h3, by simp at h4; omega⟩
      · split at h
        · rename_i hsp hsym
          obtain ⟨char, hchar, hcases⟩ := processSymbol_token h
          rw [hc] at hchar
          injection hchar with hchar
          subst hchar
          cases hcases with
          | inl hstr =>
            obtain ⟨hty, hval, hpos⟩ := hstr
            refine ⟨fun _ => hval, fun hn => absurd (.inr (.inr hty)) hn, ?_, hpos⟩
            rw [hty]
            intro hbs
            exact absurd hbs (by decide)
          | inr hsymtok =>
            obtain ⟨hval, hpos, k, hk, hkcases⟩ := hsymtok
            obtain ⟨hni, hnn, hns⟩ := symLookup_not_literal hk
            refine ⟨fun hlit => ?_, fun _ => hval, fun hbs => ?_, hpos⟩
            · rcases hlit with h' | h' | h'
              · exact absurd h' hni
              · exact absurd h' hnn
              · exact absurd h' hns
            · rw [hbs] at hk
              have hkey := symLookup_backslash hk
              have hkey2 : String.mk k = String.mk ['\\'] := hkey
              have hkl : k = ['\\'] := by injection hkey2
              rcases hkcases with h' | h' | h'
              · rw [hkl] at h'
                have hcbs : c = '\\' := by
                  injection h' with h'
                  exact h'.symm
                rw [hcbs] at hsym
                exact absurd hsym (by decide)
              · rw [hkl] at h'
                simp at h'
              · rw [hkl] at h'
                simp at h'
        · split at h
          · obtain ⟨hty, hval, hpos⟩ := processNumber_token h
            refine ⟨fun _ => hval, fun hn => absurd (.inr (.inl hty)) hn, ?_, hpos⟩
            rw [hty]
            intro hbs
            exact absurd hbs (by decide)
          · split at h
            · obtain ⟨hty, hval, hpos⟩ := processIdent_token h
              refine ⟨fun _ => hval, fun hn => absurd (.inl hty) hn, ?_, hpos⟩
              rw [hty]
              intro hbs
              exact absurd hbs (by decide)
            · exact absurd h (by simp)

/-- No call to `next()` ever moves the cursor backwards, whatever the
outcome. -/
theorem nextF_mono : ∀ (fuel : Nat) (l : Lexer) (r : NextResult) (l' : Lexer),
    Lexer.nextF fuel l = (r, l') → l.pos ≤ l'.pos := by
  intro fuel
  induction fuel with
  | zero =>
    intro l r l' h
    simp only [Lexer.nextF] at h
    injection h with h1 h2
    subst h2
    exact Nat.le_refl _
  | succ fuel ih =>
    intro l r l' h
    simp only [Lexer.nextF] at h
    split at h
    · injection h with h1 h2
      subst h2
      exact Nat.le_refl _
    · split at h
      · have := ih _ _ _ h
        simp at this
        omega
      · split at h
        · exact processSymbol_mono h
        · split at h
          · exact processNumber_mono h
          · split at h
            · exact processIdent_mono h
            · injection h with h1 h2
              subst h2
              exact Nat.le_refl _

/-- When every remaining character is whitespace, `next()` reports
end-of-input and bumps the line counter once per remaining newline. -/
theorem nextF_all_space : ∀ (fuel : Nat) (l : Lexer),
    (l.code.drop l.pos).length < fuel →
    (∀ c ∈ l.code.drop l.pos, pyIsSpace c = true) →
    (Lexer.nextF fuel l).1 = .eof ∧
      (Lexer.nextF fuel l).2.line = l.line + (l.code.drop l.pos).count '\n' := by
  intro fuel
  induction fuel with
  | zero =>
    intro l hlen hsp
    omega
  | succ fuel ih =>
    intro l hlen hsp
    cases hc : l.code[l.pos]? with
    | none =>
      have hdrop : l.code.drop l.pos = [] := by
        rw [List.drop_eq_nil_iff]
        exact List.getElem?_eq_none_iff.mp hc
      simp [Lexer.nextF, hc, hdrop]
    | some c =>
      have hdrop := drop_cons hc
      have hcsp : pyIsSpace c = true := by
        apply hsp c
        rw [hdrop]
        exact List.mem_cons_self _ _
      have hstep : Lexer.nextF (fuel + 1) l =
          Lexer.nextF fuel
            { l with line := if c = '\n' then l.line + 1 else l.line, pos := l.pos + 1 } := by
        simp [Lexer.nextF, hc, hcsp]
      have hlen2 : (l.code.drop (l.pos + 1)).length < fuel := by
        have : (l.code.drop l.pos).length = (l.code.drop (l.pos + 1)).length + 1 := by
          rw [hdrop]
          simp
        omega
      have hsp2 : ∀ x ∈ l.code.drop (l.pos + 1), pyIsSpace x = true := by
        intro x hx
        apply hsp x
        rw [hdrop]
        exact List.mem_cons_of_mem _ hx
      have IH := ih { l with line := if c = '\n' then l.line + 1 else l.line, pos := l.pos + 1 }
        (by simpa using hlen2) (by simpa using hsp2)
      rw [hstep]
      refine ⟨IH.1, ?_⟩
      rw [IH.2]
      simp only [hdrop, List.count_cons]
      by_cases hcn : c = '\n'
      all_goals simp [hcn]
      all_goals omega

/-! The claims. -/

/-- C1: for input `<<=`, the first `next()` does NOT return a single
`LEFTSHIFTEQUAL` token; the code returns a `LEFTSHIFT` token consuming only
two characters, and the following call returns an `EQUAL` token.  The
source's `_nchar(2)` returns the character at `pos + 1`, so the 3-character
candidate is built as `<<<`, which is not in the table. -/
theorem c1_lshifteq_split_eval (f : String) :
    Lexer.next (Lexer.init (String.mk ['<', '<', '=']) f) =
      (.token { pos := 0, filename := f, type := TokenType.LEFTSHIFT },
       { code := ['<', '<', '='], file := f, line := 0, pos := 2 }) ∧
    (Lexer.next { code := ['<', '<', '='], file := f, line := 0, pos := 2 }).1 =
      .token { pos := 0, filename := f, type := TokenType.EQUAL } :=
  ⟨rfl, rfl⟩

/-- C2: for the seven-character input `'it\'s'`, the first `next()` does
NOT return the whole literal; the string pattern's escape alternative is
unreachable (its first alternative `[^']` also matches the backslash), so
the match stops at the first closing quote: the token value is the
five-character text `'it\'` and the cursor stops at 5. -/
theorem c2_string_escape_eval (f : String) :
    Lexer.next (Lexer.init (String.mk ['\'', 'i', 't', '\\', '\'', 's', '\'']) f) =
      (.token { pos := 0, filename := f, type := TokenType.STRING,
                value := some (String.mk ['\'', 'i', 't', '\\', '\'']) },
       { code := ['\'', 'i', 't', '\\', '\'', 's', '\''], file := f, line := 0, pos := 5 }) :=
  rfl

/-- C3 counterexample: the exclamation mark is in the symbol-start set but
is not a single-character key of the symbol table, and the single-character
fallback lookup on input `!` crashes with a `KeyError`. -/
theorem c3_counterexample :
    '!' ∈ SYM.data ∧ symLookup (String.mk ['!']) = none ∧
      (Lexer.next (Lexer.init (String.mk ['!']) ("f"))).1 = .crash ("KeyError") := by
  decide

/-- C3 (amended): every character of the symbol-start set EXCEPT the
exclamation mark is a single-character key of the symbol table, so the
single-character fallback lookup succeeds for every symbol-start character
other than `!`. -/
theorem c3_sym_single_char_keys (c : Char) (hc : c ∈ SYM.data) (hne : c ≠ '!') :
    (symLookup (String.mk [c])).isSome = true := by
  have hall : ∀ x ∈ SYM.data, x ≠ '!' → (symLookup (String.mk [x])).isSome = true := by
    decide
  exact hall c hc hne

/-- C3 witness: the fallback lookup succeeds at the concrete symbol-start
character `(`. -/
theorem c3_sym_single_char_keys_witness :
    (symLookup (String.mk ['('])).isSome = true :=
  c3_sym_single_char_keys '(' (by decide) (by decide)

/-- C4: for input `<<`, the first `next()` does NOT return a `LEFTSHIFT`
token; the code consumes both characters but looks up only the first one,
returning a `LESS` token.  (`_process_symbol` line 179-183 advances the
cursor by 2 yet returns `SYMBOLS[char]`.) -/
theorem c4_two_char_fallback_eval (f : String) :
    Lexer.next (Lexer.init (String.mk ['<', '<']) f) =
      (.token { pos := 0, filename := f, type := TokenType.LESS },
       { code := ['<', '<'], file := f, line := 0, pos := 2 }) :=
  rfl

/-- C5: for every file label, line number, category and detail, the error
reporter produces exactly the three-line diagnostic (summary, location,
detail, newline-separated, with print's final newline) and exit status 1;
in this embedding the returned pair is the terminal outcome, so the
function never resumes its caller. -/
theorem c5_error_format (file : String) (line : Nat) (type : String) (detail : String) :
    error file line type detail =
      (("An error occurred while parsing: ") ++ type ++ ("\n") ++ ("Location: ") ++ file ++
        (":") ++ toString line ++ ("\n") ++ detail ++ ("\n"), 1) := by
  simp only [error, pyPrint, joinSep, String.append_assoc]

/-- C6: for input `12.` the first `next()` returns a Number token with
value exactly `12` (the trailing bare dot is not consumed), and the
following call returns a Dot token. -/
theorem c6_trailing_dot_eval (f : String) :
    Lexer.next (Lexer.init (String.mk ['1', '2', '.']) f) =
      (.token { pos := 0, filename := f, type := TokenType.NUMBER,
                value := some (String.mk ['1', '2']) },
       { code := ['1', '2', '.'], file := f, line := 0, pos := 2 }) ∧
    (Lexer.next { code := ['1', '2', '.'], file := f, line := 0, pos := 2 }).1 =
      .token { pos := 0, filename := f, type := TokenType.DOT } :=
  ⟨rfl, rfl⟩

/-- C7: every token returned by `next()`, from any scanner state, has a
non-empty value exactly when its type is `IDENTIFIER`, `NUMBER` or
`STRING`, and every punctuation/operator token carries no value. -/
theorem c7_value_iff_literal (l : Lexer) (t : Token) (l' : Lexer)
    (h : Lexer.next l = (.token t, l')) :
    ((∃ v, t.value = some v ∧ v ≠ ("")) ↔
      (t.type = TokenType.IDENTIFIER ∨ t.type = TokenType.NUMBER ∨
        t.type = TokenType.STRING)) ∧
    (¬(t.type = TokenType.IDENTIFIER ∨ t.type = TokenType.NUMBER ∨
        t.type = TokenType.STRING) → t.value = none) := by
  obtain ⟨h1, h2, h3, h4⟩ := nextF_token_spec _ _ _ _ h
  refine ⟨⟨fun hv => ?_, h1⟩, h2⟩
  by_contra hn
  obtain ⟨v, hv1, hv2⟩ := hv
  rw [h2 hn] at hv1
  exact absurd hv1 (by simp)

/-- C7 witness: the identifier token produced on input `a` satisfies the
value-iff-literal property. -/
theorem c7_value_iff_literal_witness :
    ((∃ v, (Token.mk 0 ("f") TokenType.IDENTIFIER (some (String.mk ['a']))).value = some v ∧
        v ≠ ("")) ↔
      ((Token.mk 0 ("f") TokenType.IDENTIFIER (some (String.mk ['a']))).type =
          TokenType.IDENTIFIER ∨
       (Token.mk 0 ("f") TokenType.IDENTIFIER (some (String.mk ['a']))).type =
          TokenType.NUMBER ∨
       (Token.mk 0 ("f") TokenType.IDENTIFIER (some (String.mk ['a']))).type =
          TokenType.STRING)) ∧
    (¬((Token.mk 0 ("f") TokenType.IDENTIFIER (some (String.mk ['a']))).type =
          TokenType.IDENTIFIER ∨
       (Token.mk 0 ("f") TokenType.IDENTIFIER (some (String.mk ['a']))).type =
          TokenType.NUMBER ∨
       (Token.mk 0 ("f") TokenType.IDENTIFIER (some (String.mk ['a']))).type =
          TokenType.STRING) →
      (Token.mk 0 ("f") TokenType.IDENTIFIER (some (String.mk ['a']))).value = none) :=
  c7_value_iff_literal (Lexer.init (String.mk ['a']) ("f"))
    (Token.mk 0 ("f") TokenType.IDENTIFIER (some (String.mk ['a'])))
    { code := ['a'], file := ("f"), line := 0, pos := 1 } rfl

/-- C8: on every `next()` call the cursor never decreases, and when the
call returns a token it strictly increases. -/
theorem c8_cursor_monotone (l : Lexer) (r : NextResult) (l' : Lexer)
    (h : Lexer.next l = (r, l')) :
    l.pos ≤ l'.pos ∧ ∀ t, r = .token t → l.pos < l'.pos := by
  refine ⟨nextF_mono _ _ _ _ h, fun t ht => ?_⟩
  subst ht
  exact (nextF_token_spec _ _ _ _ h).2.2.2

/-- C8 witness: on input `+` the call returns a token and the cursor moves
from 0 to 1. -/
theorem c8_cursor_monotone_witness :
    (Lexer.init (String.mk ['+']) ("f")).pos ≤
      ({ code := ['+'], file := ("f"), line := 0, pos := 1 } : Lexer).pos ∧
    ∀ t, NextResult.token (Token.mk 0 ("f") TokenType.PLUS none) = NextResult.token t →
      (Lexer.init (String.mk ['+']) ("f")).pos <
        ({ code := ['+'], file := ("f"), line := 0, pos := 1 } : Lexer).pos :=
  c8_cursor_monotone (Lexer.init (String.mk ['+']) ("f"))
    (NextResult.token (Token.mk 0 ("f") TokenType.PLUS none))
    { code := ['+'], file := ("f"), line := 0, pos := 1 } rfl

/-- C9: on an empty or all-whitespace input, the first `next()` returns the
end-of-input signal, and the line counter ends up incremented exactly once
per newline character of the input. -/
theorem c9_whitespace_eof (code f : String)
    (h : ∀ c ∈ code.data, pyIsSpace c = true) :
    (Lexer.next (Lexer.init code f)).1 = .eof ∧
      (Lexer.next (Lexer.init code f)).2.line = code.data.count '\n' := by
  have hlen : ((Lexer.init code f).code.drop (Lexer.init code f).pos).length <
      (Lexer.init code f).code.length - (Lexer.init code f).pos + 1 := by
    simp [Lexer.init]
  have hsp : ∀ c ∈ (Lexer.init code f).code.drop (Lexer.init code f).pos,
      pyIsSpace c = true := by
    simpa [Lexer.init] using h
  have key := nextF_all_space _ _ hlen hsp
  exact ⟨key.1, by simpa [Lexer.init] using key.2⟩

/-- C9 witness: the concrete input of one space, newline, space, newline
yields end-of-input on the first call with the line counter at 2. -/
theorem c9_whitespace_eof_witness :
    (Lexer.next (Lexer.init (String.mk [' ', '\n', ' ', '\n']) ("f"))).1 = .eof ∧
      (Lexer.next (Lexer.init (String.mk [' ', '\n', ' ', '\n']) ("f"))).2.line =
        (String.mk [' ', '\n', ' ', '\n']).data.count '\n' :=
  c9_whitespace_eof (String.mk [' ', '\n', ' ', '\n']) ("f") (by decide)

/-- C10: a backslash is never dispatched to the symbol matcher: on the
input of a single backslash, `next()` takes the fatal path with category
`UnexpectedCharacter`, and no call from any state ever returns a token of
type `BACKSLASH`. -/
theorem c10_backslash_never (f : String) :
    (Lexer.next (Lexer.init (String.mk ['\\']) f)).1 =
      .fatal f 0 ("UnexpectedCharacter")
        (("Not expecting to find character: ") ++ String.mk ['\\']) ∧
    ∀ (l : Lexer) (t : Token) (l' : Lexer), Lexer.next l = (.token t, l') →
      t.type ≠ TokenType.BACKSLASH :=
  ⟨rfl, fun _ _ _ h => (nextF_token_spec _ _ _ _ h).2.2.1⟩

/-- C10 witness: the token produced on input `-` is not a `BACKSLASH`
token. -/
theorem c10_backslash_never_witness :
    (Token.mk 0 ("f") TokenType.MINUS none).type ≠ TokenType.BACKSLASH :=
  (c10_backslash_never ("f")).2 (Lexer.init (String.mk ['-']) ("f"))
    (Token.mk 0 ("f") TokenType.MINUS none)
    { code := ['-'], file := ("f"), line := 0, pos := 1 } rfl

end Pyco
